import Mathlib

/-!
Verification of the askc terminal-assistant core against its specification.

The Python sources (src/askc/app.py, src/askc/db.py) are shallowly embedded:
Python strings become lists of characters, the streaming event loop becomes a
fold over a list of protocol messages, the SQLite-backed usage log becomes an
explicit list of records threaded through the functions, and console/subprocess
side effects become explicit output values.  The only randomness in the code
(random.choice over the finishing-message pool, cosmetic status text only) is
modelled by an injected selector function, as the spec itself recommends for
testability.
-/

namespace Askc

/-- Python strings are modelled as lists of characters. -/
abbrev Str := List Char

/-- Default whitespace stripped by Python str.strip(). -/
def pyWhitespace (c : Char) : Bool :=
  c = ' ' || c = '\t' || c = '\n' || c = '\r' || c = '\x0b' || c = '\x0c'

/-- Model of Python str.strip(): drop whitespace from both ends. -/
def strip (s : Str) : Str :=
  ((s.dropWhile pyWhitespace).reverse.dropWhile pyWhitespace).reverse

/-- Model of Python str.startswith(p). -/
def startsWith (s p : Str) : Bool :=
  List.isPrefixOf p s

/-- Model of the Python substring test sub in s. -/
def containsStr (s sub : Str) : Bool :=
  (List.range (s.length + 1)).any fun i => List.isPrefixOf sub (s.drop i)

/-- Model of Python str.lower(). -/
def lowerStr (s : Str) : Str :=
  s.map Char.toLower

/-- Model of Python s.split(sep) for a one-character separator: splitting the
empty string yields one empty field, exactly as in Python. -/
def splitOnChar (sep : Char) : Str → List Str
  | [] => [[]]
  | c :: cs =>
    if c = sep then [] :: splitOnChar sep cs
    else
      match splitOnChar sep cs with
      | [] => [[c]]
      | l :: ls => (c :: l) :: ls

/-- The uniform truncation rule used by the status presenter in app.py
(for example, cmd[:30] + "..." if len(cmd) > 30 else cmd). -/
def truncate (limit : Nat) (s : Str) : Str :=
  if limit < s.length then s.take limit ++ "...".toList else s

/-- detect_language from app.py: decide whether a script is bash or python. -/
def detect_language (script : Str) : Str :=
  if startsWith (strip script) "#!/usr/bin/env python".toList
      || startsWith (strip script) "#!/usr/bin/python".toList then
    "python".toList
  else if startsWith (strip script) "#!".toList
      || startsWith (strip script) "#!/bin/bash".toList then
    "bash".toList
  else if containsStr script "def ".toList || containsStr script "import ".toList then
    "python".toList
  else
    "bash".toList

/-- Modelled from the spec: the classification order of section 4.5 as stated —
(1) a marker line naming the python interpreter, (2) a generic interpreter
marker line, (3) the function-definition / import keyword heuristic,
(4) default bash.  This is the comparison definition for the refinement part
of the classification claim. -/
def detectLanguageOrdered (script : Str) : Str :=
  if startsWith (strip script) "#!/usr/bin/env python".toList
      || startsWith (strip script) "#!/usr/bin/python".toList then
    "python".toList
  else if startsWith (strip script) "#!".toList then
    "bash".toList
  else if containsStr script "def ".toList || containsStr script "import ".toList then
    "python".toList
  else
    "bash".toList

lemma startsWith_mono (s p q : Str) (hpq : p <+: q) (h : startsWith s q = true) :
    startsWith s p = true := by
  unfold startsWith at h ⊢
  simp at h ⊢
  exact hpq.trans h

lemma startsWith_false_of_marker_false (s q : Str) (hpq : "#!".toList <+: q)
    (h : startsWith s "#!".toList = false) : startsWith s q = false := by
  cases hq : startsWith s q with
  | false => rfl
  | true =>
    have hpre := startsWith_mono s "#!".toList q hpq hq
    rw [h] at hpre
    exact absurd hpre (by simp)

/-- C6: classification follows the stated order, and in particular a text with
a function-definition keyword and no interpreter marker classifies as python,
while plain text with no markers or keywords classifies as bash. -/
theorem c6_classification_order (script : Str) :
    detect_language script = detectLanguageOrdered script ∧
    (containsStr script "def ".toList = true →
      startsWith (strip script) "#!".toList = false →
      detect_language script = "python".toList) ∧
    (startsWith (strip script) "#!".toList = false →
      containsStr script "def ".toList = false →
      containsStr script "import ".toList = false →
      detect_language script = "bash".toList) := by
  refine ⟨?_, ?_, ?_⟩
  · have hb : (startsWith (strip script) "#!".toList
        || startsWith (strip script) "#!/bin/bash".toList)
        = startsWith (strip script) "#!".toList := by
      cases h : startsWith (strip script) "#!".toList with
      | true => simp
      | false =>
        rw [startsWith_false_of_marker_false (strip script) "#!/bin/bash".toList
          (by decide) h]
        simp
    unfold detect_language detectLanguageOrdered
    rw [hb]
  · intro hdef hmark
    have h1 : startsWith (strip script) "#!/usr/bin/env python".toList = false :=
      startsWith_false_of_marker_false (strip script) "#!/usr/bin/env python".toList
        (by decide) hmark
    have h2 : startsWith (strip script) "#!/usr/bin/python".toList = false :=
      startsWith_false_of_marker_false (strip script) "#!/usr/bin/python".toList
        (by decide) hmark
    have h3 : startsWith (strip script) "#!/bin/bash".toList = false :=
      startsWith_false_of_marker_false (strip script) "#!/bin/bash".toList
        (by decide) hmark
    unfold detect_language
    rw [h1, h2, hmark, h3, hdef]
    simp
  · intro hmark hdef himp
    have h1 : startsWith (strip script) "#!/usr/bin/env python".toList = false :=
      startsWith_false_of_marker_false (strip script) "#!/usr/bin/env python".toList
        (by decide) hmark
    have h2 : startsWith (strip script) "#!/usr/bin/python".toList = false :=
      startsWith_false_of_marker_false (strip script) "#!/usr/bin/python".toList
        (by decide) hmark
    have h3 : startsWith (strip script) "#!/bin/bash".toList = false :=
      startsWith_false_of_marker_false (strip script) "#!/bin/bash".toList
        (by decide) hmark
    unfold detect_language
    rw [h1, h2, hmark, h3, hdef, himp]
    simp

/-- Witness for C6: a def-keyword text with no marker classifies as python and
plain command text classifies as bash. -/
theorem c6_classification_order_witness :
    detect_language "def f(): pass".toList = "python".toList ∧
    detect_language "ls -la".toList = "bash".toList :=
  ⟨(c6_classification_order "def f(): pass".toList).2.1 (by decide) (by decide),
   (c6_classification_order "ls -la".toList).2.2 (by decide) (by decide) (by decide)⟩

/-- C8: the status truncation rule is idempotent, for every limit (so in
particular for the 30/20/25/30 limits the presenter uses). -/
theorem c8_truncate_idempotent (limit : Nat) (s : Str) :
    truncate limit (truncate limit s) = truncate limit s := by
  by_cases h : limit < s.length
  · have hlen : (s.take limit).length = limit := by
      simp [List.length_take]
      omega
    simp only [truncate, if_pos h]
    have hcond : limit < (s.take limit ++ "...".toList).length := by
      simp [List.length_append, hlen]
    rw [if_pos hcond, List.take_append_eq_append_take, hlen, Nat.sub_self, List.take_zero,
      List.append_nil, List.take_take]
    simp
  · simp [truncate, h]

/-- C10: any script whose stripped text begins with an interpreter marker that
does not name the python interpreter classifies as bash, regardless of the
lexical heuristic. -/
theorem c10_shebang_overrides_heuristic (script : Str)
    (hmark : startsWith (strip script) "#!".toList = true)
    (h1 : startsWith (strip script) "#!/usr/bin/env python".toList = false)
    (h2 : startsWith (strip script) "#!/usr/bin/python".toList = false) :
    detect_language script = "bash".toList := by
  unfold detect_language
  rw [h1, h2, hmark]
  simp

/-- Witness for C10: a ruby shebang script containing a def keyword still
classifies as bash. -/
theorem c10_shebang_overrides_heuristic_witness :
    detect_language ("#!/usr/bin/env ruby\ndef greet\nend".toList) = "bash".toList :=
  c10_shebang_overrides_heuristic "#!/usr/bin/env ruby\ndef greet\nend".toList
    (by decide) (by decide) (by decide)

/-- The fixed finishing-message pool from app.py (random.choice source for the
StructuredOutput status; apostrophes written as hex escapes). -/
def FINISHING_MESSAGES : List Str :=
  ["Wrapping up".toList, "Almost there".toList, "Finishing touches".toList,
   "Polishing response".toList, "Just a moment".toList, "Putting it together".toList,
   "Final thoughts".toList, "Tidying up".toList, "One sec".toList,
   "Dotting the i\x27s".toList, "Crossing the t\x27s".toList, "Nearly done".toList,
   "Hang tight".toList, "Last step".toList, "Synthesizing".toList,
   "Composing answer".toList, "Crafting response".toList, "Gathering thoughts".toList,
   "Pulling it together".toList, "Summing up".toList, "Rounding out".toList,
   "Buttoning up".toList, "Home stretch".toList, "Final pass".toList,
   "Wrapping things up".toList, "Just about done".toList, "Tying loose ends".toList,
   "Adding final touches".toList, "Sealing the deal".toList, "Last look".toList,
   "Quick review".toList, "Double checking".toList, "Sanity check".toList,
   "Final review".toList, "Packaging response".toList, "Gift wrapping".toList,
   "Sprinkling magic".toList, "Chef\x27s kiss".toList, "Mic drop prep".toList,
   "Drumroll please".toList, "And... done soon".toList, "Bear with me".toList,
   "Hold that thought".toList, "Processing brilliance".toList, "Genius at work".toList,
   "Cooking up answer".toList, "Baking response".toList, "Marinating thoughts".toList,
   "Simmering ideas".toList, "Steeping wisdom".toList]

/-- The spinner styles that cycle on each new tool call, from app.py. -/
def SPINNER_STYLES : List Str :=
  ["dots".toList, "dots2".toList, "dots3".toList, "line".toList,
   "arc".toList, "moon".toList, "arrow3".toList, "bouncingBar".toList]

/-- A Python dict from strings to strings, as an insertion-ordered
association list with unique keys. -/
abbrev AList := List (Str × Str)

/-- Dict lookup: d.get(k) / d[k]. -/
def dictLookup : AList → Str → Option Str
  | [], _ => none
  | p :: rest, k => if p.1 = k then some p.2 else dictLookup rest k

/-- Dict membership: k in d. -/
def dictContains (d : AList) (k : Str) : Bool :=
  (dictLookup d k).isSome

/-- Dict assignment d[k] = v: overwrite when present, else append. -/
def dictInsert (d : AList) (k v : Str) : AList :=
  if dictContains d k then
    d.map fun p => if p.1 = k then (k, v) else p
  else
    d ++ [(k, v)]

/-- Dict removal d.pop(k). -/
def dictErase : AList → Str → AList
  | [], _ => []
  | p :: rest, k => if p.1 = k then dictErase rest k else p :: dictErase rest k

/-- Dict get-with-default: d.get(k, ""). -/
def aget (d : AList) (k : Str) : Str :=
  (dictLookup d k).getD []

/-- get_tool_status from app.py: status message and color for a tool call.
The leading finishPick argument injects the index drawn by random.choice for
the StructuredOutput branch (cosmetic only); all other branches ignore it. -/
def get_tool_status (finishPick : Nat) (name : Str) (toolInput : AList) : Str × Str :=
  if name = "StructuredOutput".toList then
    let msg := FINISHING_MESSAGES.getD (finishPick % FINISHING_MESSAGES.length) []
    ("[bold cyan]".toList ++ msg ++ "...[/]".toList, "cyan".toList)
  else if name = "Bash".toList then
    let detail := truncate 30 (aget toolInput "command".toList)
    ("[bold green]Running[/] [dim](".toList ++ detail ++ ")[/]".toList, "green".toList)
  else if name = "Read".toList then
    let detail := ((splitOnChar '/' (aget toolInput "file_path".toList)).getLast?).getD []
    ("[bold cyan]Reading[/] [dim](".toList ++ detail ++ ")[/]".toList, "cyan".toList)
  else if name = "Glob".toList || name = "Grep".toList then
    let detail := truncate 20 (aget toolInput "pattern".toList)
    ("[bold yellow]Searching[/] [dim](".toList ++ detail ++ ")[/]".toList, "yellow".toList)
  else if name = "WebSearch".toList then
    let detail := truncate 25 (aget toolInput "query".toList)
    ("[bold magenta]Web search[/] [dim](".toList ++ detail ++ ")[/]".toList, "magenta".toList)
  else if name = "WebFetch".toList then
    let detail := truncate 30 (aget toolInput "url".toList)
    ("[bold magenta]Fetching[/] [dim](".toList ++ detail ++ ")[/]".toList, "magenta".toList)
  else
    ("[bold yellow]".toList ++ name ++ "...[/]".toList, "yellow".toList)

/-- QueryResult from app.py. -/
structure QueryResult where
  answer : Str
  suggested_command : Option Str
  suggested_script : Option Str
deriving DecidableEq

/-- The terminal structured-output payload: a non-empty (truthy) JSON object.
The answer field models out.get with presence or absence; absent or empty
dicts are represented by the surrounding Option being none. -/
structure StructuredOut where
  answer : Option Str
  suggested_command : Option Str
  suggested_script : Option Str
deriving DecidableEq

/-- A content block of a streamed message: ToolUseBlock, ToolResultBlock, or
any other block kind (e.g. TextBlock), which the loop ignores. -/
inductive Block where
  | toolUse (id : Option Str) (name : Str) (input : AList)
  | toolResult (toolUseId : Option Str) (content : Option Str)
  | other
deriving DecidableEq

/-- A streamed protocol message. isAsstOrUser: the message class is
AssistantMessage or UserMessage (content blocks are only scanned then).
structuredOutput and totalCostUsd model the terminal result message's
attributes; none elsewhere. -/
structure Message where
  isAsstOrUser : Bool
  content : List Block
  structuredOutput : Option StructuredOut
  totalCostUsd : Option ℚ

/-- Observable console output of one query run, as structured print events. -/
inductive ConsoleLine where
  | blank
  | markdown (text : Str)
  | costLine (cost : ℚ)
  | bashPreview (cmdShown : Str) (preview : Str)
  | noResponse
deriving DecidableEq

/-- The loop state of run_interactive: captured result and cost, the spinner
index, the bash tool-call tracker, plus the observable status and console
output.  toolUseCount counts tool-use events, indexing the injected
random-choice source. -/
structure RunState where
  result : Option QueryResult
  cost : Option ℚ
  spinnerIdx : Nat
  toolUseCount : Nat
  bashToolIds : AList
  statusUpdates : List Str
  console : List ConsoleLine

/-- Initial state of run_interactive's loop. -/
def initState : RunState :=
  { result := none, cost := none, spinnerIdx := 0, toolUseCount := 0,
    bashToolIds := [], statusUpdates := [], console := [] }

/-- The one-line bash output preview printed when a tracked Bash call's result
arrives: first output line truncated to 60 chars, with an ellipsis when the
output has several lines or a long first line; the command shown truncated
to 40 chars. -/
def bashPreviewLine (cmd out : Str) : ConsoleLine :=
  let lines := splitOnChar '\n' (strip out)
  let first := (lines.headD [])
  let preview := first.take 60
  let preview := if 1 < lines.length || 60 < first.length then preview ++ "...".toList else preview
  ConsoleLine.bashPreview (cmd.take 40 ++ (if 40 < cmd.length then "...".toList else [])) preview

/-- The ToolResultBlock step on the tracker map: when the call id is tracked,
pop it and, for non-empty string output, emit the one-line preview; otherwise
leave the map alone and emit nothing (unmatched results are silently
ignored). -/
def toolResultStep (m : AList) (useId : Option Str) (content : Option Str) :
    AList × List ConsoleLine :=
  match useId with
  | some tid =>
    if dictContains m tid then
      let cmd := (dictLookup m tid).getD []
      let m1 := dictErase m tid
      match content with
      | some out => if out ≠ [] then (m1, [bashPreviewLine cmd out]) else (m1, [])
      | none => (m1, [])
    else (m, [])
  | none => (m, [])

/-- Processing of a ToolResultBlock in run_interactive's loop. -/
def processToolResult (st : RunState) (useId : Option Str) (content : Option Str) :
    RunState :=
  let r := toolResultStep st.bashToolIds useId content
  { st with bashToolIds := r.1, console := st.console ++ r.2 }

/-- Processing of a ToolUseBlock in run_interactive's loop: advance the
spinner, update the status line, and track Bash calls (truthy ids only) for
later output preview. -/
def processToolUse (picks : Nat → Nat) (st : RunState) (id : Option Str)
    (name : Str) (input : AList) : RunState :=
  let spinnerIdx := (st.spinnerIdx + 1) % SPINNER_STYLES.length
  let statusMsg := (get_tool_status (picks st.toolUseCount) name input).1
  let bashToolIds :=
    if name = "Bash".toList then
      match id with
      | some tid =>
        if tid ≠ [] then dictInsert st.bashToolIds tid (aget input "command".toList)
        else st.bashToolIds
      | none => st.bashToolIds
    else st.bashToolIds
  { st with
    spinnerIdx := spinnerIdx
    toolUseCount := st.toolUseCount + 1
    statusUpdates := st.statusUpdates ++ [statusMsg]
    bashToolIds := bashToolIds }

/-- Processing of one content block. -/
def processBlock (picks : Nat → Nat) (st : RunState) : Block → RunState
  | Block.toolUse id name input => processToolUse picks st id name input
  | Block.toolResult useId content => processToolResult st useId content
  | Block.other => st

/-- Processing of one streamed message: scan content blocks of assistant and
user messages, then capture a truthy structured output and the total cost. -/
def processMessage (picks : Nat → Nat) (st : RunState) (m : Message) : RunState :=
  let st1 := if m.isAsstOrUser then m.content.foldl (processBlock picks) st else st
  match m.structuredOutput with
  | some out =>
    { st1 with
      result := some { answer := out.answer.getD [],
                       suggested_command := out.suggested_command,
                       suggested_script := out.suggested_script },
      cost := m.totalCostUsd }
  | none => st1

/-- A serialized tool event in the persisted log column (db.py / readers in
cli.py). -/
inductive LogEvent where
  | toolUse (tool : Str) (input : AList)
  | toolResult (output : Str)
deriving DecidableEq

/-- One row of the queries table (db.py); the wall-clock timestamp column is
external and omitted.  Row ids are positional: the record at index i has id
i + 1. -/
structure QueryRecord where
  cost_usd : ℚ
  question : Str
  answer : Str
  log : List LogEvent
  suggested : Str
  script_run : Bool
deriving DecidableEq

/-- log_query from db.py: insert one row (question truncated to 500 chars,
script_run defaulting to 0) and return its id. -/
def log_query (db : List QueryRecord) (cost_usd : ℚ) (question : Str)
    (answer : Str := []) (logEvents : Option (List LogEvent) := none)
    (suggested : Str := []) : Nat × List QueryRecord :=
  (db.length + 1,
   db ++ [{ cost_usd := cost_usd, question := question.take 500, answer := answer,
            log := logEvents.getD [], suggested := suggested, script_run := false }])

/-- mark_script_run from db.py: set the script_run flag of the row with the
given id. -/
def mark_script_run (db : List QueryRecord) (queryId : Nat) : List QueryRecord :=
  db.mapIdx fun i r => if i + 1 = queryId then { r with script_run := true } else r

/-- Python truthiness of an optional string (None and "" are falsy). -/
def pyTruthy : Option Str → Bool
  | some s => !s.isEmpty
  | none => false

/-- The suggested action handed to handle_script_interaction:
script = result.suggested_script or result.suggested_command, entered only
when truthy, with is_script = bool(result.suggested_script). -/
def scriptChoice (result : QueryResult) : Option (Str × Bool) :=
  let script :=
    if pyTruthy result.suggested_script then result.suggested_script
    else result.suggested_command
  if pyTruthy script then some (script.getD [], pyTruthy result.suggested_script)
  else none

/-- The observable outcome of one run_interactive call: console output, the
resulting usage-log contents, and the suggested action (with its script flag)
handed to the follow-up interaction, if any. -/
structure RunOutcome where
  console : List ConsoleLine
  db : List QueryRecord
  interaction : Option (Str × Bool)
deriving DecidableEq

/-- The tail of run_interactive after the stream is exhausted: print the
answer; when a cost was captured, print it and persist via log_query (called
with only cost and question, its other arguments left at their defaults);
then hand off the suggested action; without any captured result, report that
no response was received. -/
def finishRun (question : Str) (st : RunState) (db : List QueryRecord) : RunOutcome :=
  match st.result with
  | some result =>
    let console := st.console ++ [ConsoleLine.blank, ConsoleLine.markdown result.answer,
      ConsoleLine.blank]
    match st.cost with
    | some c =>
      { console := console ++ [ConsoleLine.costLine c],
        db := (log_query db c question).2,
        interaction := scriptChoice result }
    | none =>
      { console := console, db := db, interaction := scriptChoice result }
  | none =>
    { console := st.console ++ [ConsoleLine.blank, ConsoleLine.noResponse],
      db := db, interaction := none }

/-- run_interactive from app.py over a given event stream, with the usage-log
state threaded explicitly and the cosmetic random choice injected. -/
def run_interactive (picks : Nat → Nat) (question : Str) (messages : List Message)
    (db : List QueryRecord) : RunOutcome :=
  finishRun question (messages.foldl (processMessage picks) initState) db

/-- External effects of the post-answer interaction state machine.  The
markScriptRun constructor stands for a call to db.mark_script_run. -/
inductive IEffect where
  | runScript (lang : Str) (script : Str)
  | previewScript (lang : Str) (script : Str)
  | analyzeScript (script : Str)
  | saveScript (path : Str) (script : Str)
  | markScriptRun (queryId : Nat)
  | invalidChoice
deriving DecidableEq

/-- run_script from app.py: classify the dialect and spawn the interpreter. -/
def run_script (script : Str) : List IEffect :=
  [IEffect.runScript (detect_language script) script]

/-- save_script from app.py: prompt for a destination (default script.py or
script.sh by dialect) and write the script there. -/
def save_script (script : Str) (pathInput : Str) : List IEffect :=
  let lang := detect_language script
  let ext := if lang = "python".toList then ".py".toList else ".sh".toList
  let path := if strip pathInput = [] then "script".toList ++ ext else strip pathInput
  [IEffect.saveScript path script]

/-- handle_script_interaction from app.py: the run / preview / analyze / save /
quit loop, consuming one user input per prompt (the save branch consumes the
following input as its destination path).  An exhausted input list models the
session ending. -/
def handle_script_interaction (script : Str) (isMultiline : Bool) :
    List Str → List IEffect
  | [] => []
  | input :: rest =>
    let choice := lowerStr (strip input)
    if choice = "r".toList then run_script script
    else if choice = "p".toList && isMultiline then
      IEffect.previewScript (detect_language script) script
        :: handle_script_interaction script isMultiline rest
    else if choice = "a".toList then
      IEffect.analyzeScript script :: handle_script_interaction script isMultiline rest
    else if choice = "s".toList && isMultiline then
      save_script script (rest.headD [])
    else if choice = "q".toList || choice = [] then []
    else IEffect.invalidChoice :: handle_script_interaction script isMultiline rest

/-- Number of tool-use blocks in a block list. -/
def countBlockToolUses (blocks : List Block) : Nat :=
  (blocks.filter fun b => match b with | Block.toolUse _ _ _ => true | _ => false).length

/-- Number of tool-invocation events carried by a message stream (blocks are
only scanned in assistant and user messages). -/
def countToolUses (msgs : List Message) : Nat :=
  (msgs.map fun m => if m.isAsstOrUser then countBlockToolUses m.content else 0).sum

/-- A fixed selector for the injected random source, used by witnesses. -/
def pickZero : Nat → Nat := fun _ => 0

lemma processBlock_result (picks : Nat → Nat) (st : RunState) (b : Block) :
    (processBlock picks st b).result = st.result := by
  cases b <;> rfl

lemma foldl_processBlock_result (picks : Nat → Nat) :
    ∀ (blocks : List Block) (st : RunState),
      (blocks.foldl (processBlock picks) st).result = st.result := by
  intro blocks
  induction blocks with
  | nil => intro st; rfl
  | cons b bs ih =>
    intro st
    rw [List.foldl_cons, ih, processBlock_result]

lemma processMessage_result_none (picks : Nat → Nat) (st : RunState) (m : Message)
    (h : m.structuredOutput = none) :
    (processMessage picks st m).result = st.result := by
  unfold processMessage
  rw [h]
  by_cases hA : m.isAsstOrUser
  · simp [hA, foldl_processBlock_result]
  · simp [hA]

lemma foldl_processMessage_result_none (picks : Nat → Nat) :
    ∀ (msgs : List Message) (st : RunState),
      (∀ m ∈ msgs, m.structuredOutput = none) →
      (msgs.foldl (processMessage picks) st).result = st.result := by
  intro msgs
  induction msgs with
  | nil => intro st _; rfl
  | cons m ms ih =>
    intro st h
    rw [List.foldl_cons, ih _ (fun x hx => h x (List.mem_cons_of_mem m hx)),
      processMessage_result_none picks st m (h m (List.mem_cons_self m ms))]

lemma finishRun_result_none (question : Str) (st : RunState) (db : List QueryRecord)
    (h : st.result = none) :
    finishRun question st db =
      { console := st.console ++ [ConsoleLine.blank, ConsoleLine.noResponse],
        db := db, interaction := none } := by
  unfold finishRun
  rw [h]

/-- C4: when the stream never yields a terminal structured-output event, no
record is persisted, the user sees the no-response message, and no follow-up
interaction is entered (the run still returns normally). -/
theorem c4_no_terminal_no_persist (picks : Nat → Nat) (question : Str)
    (msgs : List Message) (db : List QueryRecord)
    (h : ∀ m ∈ msgs, m.structuredOutput = none) :
    (run_interactive picks question msgs db).db = db ∧
    ConsoleLine.noResponse ∈ (run_interactive picks question msgs db).console ∧
    (run_interactive picks question msgs db).interaction = none := by
  have hres : (msgs.foldl (processMessage picks) initState).result = none :=
    foldl_processMessage_result_none picks msgs initState h
  unfold run_interactive
  rw [finishRun_result_none question _ db hres]
  refine ⟨rfl, ?_, rfl⟩
  simp

/-- Witness for C4: the empty stream persists nothing and reports no
response. -/
theorem c4_no_terminal_no_persist_witness :
    (run_interactive pickZero "hi".toList [] []).db = [] ∧
    ConsoleLine.noResponse ∈ (run_interactive pickZero "hi".toList [] []).console ∧
    (run_interactive pickZero "hi".toList [] []).interaction = none :=
  c4_no_terminal_no_persist pickZero "hi".toList [] [] (by simp)

/-- Scenario 1 of the spec: question, one Bash invocation, its matching
result, then the terminal event with answer, suggested command and cost. -/
def scenario1Question : Str := "list files here".toList

/-- Cost carried by scenario 1's terminal event. -/
def scenario1Cost : ℚ := 2 / 1000

/-- Scenario 1's Bash tool-invocation message. -/
def scenario1m1 : Message :=
  { isAsstOrUser := true
    content := [Block.toolUse (some "t1".toList) "Bash".toList
      [("command".toList, "ls -la".toList)]]
    structuredOutput := none
    totalCostUsd := none }

/-- Scenario 1's matching tool-result message. -/
def scenario1m2 : Message :=
  { isAsstOrUser := true
    content := [Block.toolResult (some "t1".toList) (some "file1\nfile2".toList)]
    structuredOutput := none
    totalCostUsd := none }

/-- Scenario 1's terminal structured-result message. -/
def scenario1m3 : Message :=
  { isAsstOrUser := false
    content := []
    structuredOutput := some
      { answer := some "Found 2 files".toList
        suggested_command := some "ls -la".toList
        suggested_script := none }
    totalCostUsd := some scenario1Cost }

/-- Scenario 1's full event stream. -/
def scenario1Msgs : List Message := [scenario1m1, scenario1m2, scenario1m3]

/-- C1 (code bug): running scenario 1, the record actually persisted carries
only the cost and the question — its answer, tool-event log and suggested
columns are left at log_query's empty defaults, because run_interactive calls
log_query(cost, question) with no further arguments.  The suggested command
does reach the follow-up interaction, so the data was available. -/
theorem c1_persisted_record_is_cost_and_question_only :
    (run_interactive pickZero scenario1Question scenario1Msgs []).db =
      [{ cost_usd := scenario1Cost
         question := scenario1Question
         answer := []
         log := []
         suggested := []
         script_run := false }] ∧
    (run_interactive pickZero scenario1Question scenario1Msgs []).interaction =
      some ("ls -la".toList, false) := by
  exact ⟨rfl, rfl⟩

/-- A stream whose terminal event has an answer but no total_cost field. -/
def costlessResultMsg : Message :=
  { isAsstOrUser := false
    content := []
    structuredOutput := some
      { answer := some "Found 2 files".toList
        suggested_command := none
        suggested_script := none }
    totalCostUsd := none }

/-- Counterexample to C2: a run that completes with a captured structured
result whose terminal event carries no total_cost persists no record at
all. -/
theorem c2_no_persist_without_cost :
    (([costlessResultMsg].foldl (processMessage pickZero) initState)).result.isSome = true ∧
    (run_interactive pickZero "list files here".toList [costlessResultMsg] []).db = [] := by
  exact ⟨rfl, rfl⟩

/-- C2 as amended: with a captured result, exactly one record is persisted
(and its id obtained) precisely when the terminal event carried a cost; with
the cost absent the log store is left untouched. -/
theorem c2_persist_exactly_one_iff_cost (picks : Nat → Nat) (question : Str)
    (msgs : List Message) (db : List QueryRecord) (r : QueryResult)
    (hres : (msgs.foldl (processMessage picks) initState).result = some r) :
    (∀ c : ℚ, (msgs.foldl (processMessage picks) initState).cost = some c →
      (run_interactive picks question msgs db).db =
        db ++ [{ cost_usd := c
                 question := question.take 500
                 answer := []
                 log := []
                 suggested := []
                 script_run := false }] ∧
      (log_query db c question).1 = db.length + 1) ∧
    ((msgs.foldl (processMessage picks) initState).cost = none →
      (run_interactive picks question msgs db).db = db) := by
  unfold run_interactive finishRun
  rw [hres]
  constructor
  · intro c hc
    rw [hc]
    exact ⟨rfl, rfl⟩
  · intro hc
    rw [hc]

/-- A terminal event carrying both an answer and a cost. -/
def costedResultMsg : Message :=
  { isAsstOrUser := false
    content := []
    structuredOutput := some
      { answer := some "ok".toList
        suggested_command := none
        suggested_script := none }
    totalCostUsd := some 1 }

/-- Witness for the amended C2: with a cost present, exactly the one expected
record is appended. -/
theorem c2_persist_exactly_one_iff_cost_witness :
    (run_interactive pickZero "q".toList [costedResultMsg] []).db =
      [] ++ [{ cost_usd := 1
               question := ("q".toList).take 500
               answer := []
               log := []
               suggested := []
               script_run := false }] ∧
    (log_query [] 1 "q".toList).1 = ([] : List QueryRecord).length + 1 :=
  ((c2_persist_exactly_one_iff_cost pickZero "q".toList [costedResultMsg] []
    { answer := "ok".toList, suggested_command := none, suggested_script := none }
    rfl).1) 1 rfl

/-- C3 (code bug): the Run choice of the interaction state machine executes
the script but the state machine can never emit a mark_script_run call — no
call site of db.mark_script_run exists in the application, so the persisted
executed flag is never mutated. -/
theorem c3_executed_flag_never_set :
    handle_script_interaction "ls -la".toList false ["r".toList] =
      [IEffect.runScript "bash".toList "ls -la".toList] ∧
    ∀ (script : Str) (isMultiline : Bool) (inputs : List Str) (queryId : Nat),
      IEffect.markScriptRun queryId ∉ handle_script_interaction script isMultiline inputs := by
  refine ⟨by rfl, ?_⟩
  intro script isMultiline inputs queryId
  induction inputs with
  | nil => simp [handle_script_interaction]
  | cons input rest ih =>
    simp only [handle_script_interaction]
    split
    · simp [run_script]
    · split
      · simp [ih]
      · split
        · simp [ih]
        · split
          · simp [save_script]
          · split
            · simp
            · simp [ih]

/-- Witness for C3: after the user runs the suggested action, no executed
flag mutation has been emitted. -/
theorem c3_executed_flag_never_set_witness :
    IEffect.markScriptRun 1 ∉ handle_script_interaction "ls -la".toList false ["r".toList] :=
  c3_executed_flag_never_set.2 "ls -la".toList false ["r".toList] 1

/-- C5: when the captured structured result has both a non-empty suggested
script and a non-empty suggested command, the follow-up interaction receives
the script, in script mode. -/
theorem c5_script_preferred_over_command (picks : Nat → Nat) (question : Str)
    (msgs : List Message) (db : List QueryRecord) (r : QueryResult) (ss sc : Str)
    (hres : (msgs.foldl (processMessage picks) initState).result = some r)
    (hss : r.suggested_script = some ss) (hssne : ss ≠ [])
    (hsc : r.suggested_command = some sc) (hscne : sc ≠ []) :
    (run_interactive picks question msgs db).interaction = some (ss, true) := by
  have hT : pyTruthy r.suggested_script = true := by
    rw [hss]
    unfold pyTruthy
    simp [hssne]
  have hchoice : scriptChoice r = some (ss, true) := by
    unfold scriptChoice
    rw [hT]
    simp only [if_true]
    rw [hss]
    unfold pyTruthy
    simp [hssne]
  unfold run_interactive finishRun
  rw [hres]
  cases hc : (msgs.foldl (processMessage picks) initState).cost with
  | none => simp [hchoice]
  | some c => simp [hchoice]

/-- A terminal event that sets both suggested_command and suggested_script. -/
def bothSuggestionsMsg : Message :=
  { isAsstOrUser := false
    content := []
    structuredOutput := some
      { answer := some "a".toList
        suggested_command := some "cmd".toList
        suggested_script := some "scr".toList }
    totalCostUsd := some 1 }

/-- Witness for C5: with both suggestions set, the interaction gets the
script in script mode. -/
theorem c5_script_preferred_over_command_witness :
    (run_interactive pickZero "q".toList [bothSuggestionsMsg] []).interaction =
      some ("scr".toList, true) :=
  c5_script_preferred_over_command pickZero "q".toList [bothSuggestionsMsg] []
    { answer := "a".toList
      suggested_command := some "cmd".toList
      suggested_script := some "scr".toList }
    "scr".toList "cmd".toList rfl rfl (by decide) rfl (by decide)

lemma dictLookup_dictErase_self (d : AList) (k : Str) :
    dictLookup (dictErase d k) k = none := by
  induction d with
  | nil => rfl
  | cons p rest ih =>
    unfold dictErase
    by_cases h : p.1 = k
    · rw [if_pos h]
      exact ih
    · rw [if_neg h]
      unfold dictLookup
      rw [if_neg h]
      exact ih

lemma processToolResult_nomatch (st : RunState) (tid : Str) (content : Option Str)
    (h : dictLookup st.bashToolIds tid = none) :
    processToolResult st (some tid) content = st := by
  have hcont : dictContains st.bashToolIds tid = false := by
    unfold dictContains
    rw [h]
    rfl
  unfold processToolResult toolResultStep
  simp [hcont]

/-- C7: a tool-result whose call id matches a tracked Bash invocation is
resolved exactly once — it pops the registration and prints the one-line
output preview; a second result with the same id finds no registration and
leaves the state entirely unchanged. -/
theorem c7_result_resolved_exactly_once (picks : Nat → Nat) (st : RunState)
    (tid cmd out : Str)
    (hlook : dictLookup st.bashToolIds tid = some cmd) (hout : out ≠ []) :
    (processBlock picks st (Block.toolResult (some tid) (some out))).console =
      st.console ++ [bashPreviewLine cmd out] ∧
    dictLookup (processBlock picks st
      (Block.toolResult (some tid) (some out))).bashToolIds tid = none ∧
    processBlock picks (processBlock picks st (Block.toolResult (some tid) (some out)))
      (Block.toolResult (some tid) (some out)) =
      processBlock picks st (Block.toolResult (some tid) (some out)) := by
  have hcont : dictContains st.bashToolIds tid = true := by
    unfold dictContains
    rw [hlook]
    rfl
  have hstep : toolResultStep st.bashToolIds (some tid) (some out) =
      (dictErase st.bashToolIds tid, [bashPreviewLine cmd out]) := by
    unfold toolResultStep
    simp [hcont, hlook, hout]
  have hfirst : processBlock picks st (Block.toolResult (some tid) (some out)) =
      { st with
        bashToolIds := dictErase st.bashToolIds tid
        console := st.console ++ [bashPreviewLine cmd out] } := by
    show processToolResult st (some tid) (some out) = _
    unfold processToolResult
    rw [hstep]
  refine ⟨?_, ?_, ?_⟩
  · rw [hfirst]
  · rw [hfirst]
    exact dictLookup_dictErase_self st.bashToolIds tid
  · have h2 : dictLookup (processBlock picks st
        (Block.toolResult (some tid) (some out))).bashToolIds tid = none := by
      rw [hfirst]
      exact dictLookup_dictErase_self st.bashToolIds tid
    exact processToolResult_nomatch _ tid (some out) h2

/-- A loop state with one tracked Bash call, for the C7 witness. -/
def oneTrackedState : RunState :=
  { result := none
    cost := none
    spinnerIdx := 0
    toolUseCount := 0
    bashToolIds := [("t1".toList, "ls".toList)]
    statusUpdates := []
    console := [] }

/-- Witness for C7 at a concrete tracked call. -/
theorem c7_result_resolved_exactly_once_witness :
    (processBlock pickZero oneTrackedState
      (Block.toolResult (some "t1".toList) (some "ok".toList))).console =
      oneTrackedState.console ++ [bashPreviewLine "ls".toList "ok".toList] ∧
    dictLookup (processBlock pickZero oneTrackedState
      (Block.toolResult (some "t1".toList) (some "ok".toList))).bashToolIds
      "t1".toList = none ∧
    processBlock pickZero (processBlock pickZero oneTrackedState
      (Block.toolResult (some "t1".toList) (some "ok".toList)))
      (Block.toolResult (some "t1".toList) (some "ok".toList)) =
      processBlock pickZero oneTrackedState
        (Block.toolResult (some "t1".toList) (some "ok".toList)) :=
  c7_result_resolved_exactly_once pickZero oneTrackedState "t1".toList "ls".toList
    "ok".toList rfl (by decide)

lemma processToolUse_spinnerIdx (picks : Nat → Nat) (st : RunState) (id : Option Str)
    (name : Str) (input : AList) :
    (processToolUse picks st id name input).spinnerIdx =
      (st.spinnerIdx + 1) % SPINNER_STYLES.length := rfl

lemma countBlockToolUses_cons_toolUse (id : Option Str) (name : Str) (input : AList)
    (bs : List Block) :
    countBlockToolUses (Block.toolUse id name input :: bs) = countBlockToolUses bs + 1 := by
  unfold countBlockToolUses
  simp [List.filter]

lemma countBlockToolUses_cons_toolResult (useId : Option Str) (content : Option Str)
    (bs : List Block) :
    countBlockToolUses (Block.toolResult useId content :: bs) = countBlockToolUses bs := by
  unfold countBlockToolUses
  simp [List.filter]

lemma countBlockToolUses_cons_other (bs : List Block) :
    countBlockToolUses (Block.other :: bs) = countBlockToolUses bs := by
  unfold countBlockToolUses
  simp [List.filter]

lemma foldl_processBlock_spinnerIdx (picks : Nat → Nat) :
    ∀ (blocks : List Block) (st : RunState), st.spinnerIdx < SPINNER_STYLES.length →
      (blocks.foldl (processBlock picks) st).spinnerIdx =
        (st.spinnerIdx + countBlockToolUses blocks) % SPINNER_STYLES.length := by
  intro blocks
  induction blocks with
  | nil =>
    intro st h
    simp [countBlockToolUses]
    exact (Nat.mod_eq_of_lt h).symm
  | cons b bs ih =>
    intro st h
    rw [List.foldl_cons]
    cases b with
    | toolUse id name input =>
      have h1 : (processBlock picks st (Block.toolUse id name input)).spinnerIdx <
          SPINNER_STYLES.length := Nat.mod_lt _ (by decide)
      rw [ih _ h1]
      simp only [processBlock]
      rw [processToolUse_spinnerIdx, countBlockToolUses_cons_toolUse, Nat.mod_add_mod]
      congr 1
      omega
    | toolResult useId content =>
      have h1 : (processBlock picks st (Block.toolResult useId content)).spinnerIdx <
          SPINNER_STYLES.length := h
      rw [ih _ h1]
      simp only [processBlock]
      rw [countBlockToolUses_cons_toolResult]
      rfl
    | other =>
      have h1 : (processBlock picks st Block.other).spinnerIdx <
          SPINNER_STYLES.length := h
      rw [ih _ h1]
      simp only [processBlock]
      rw [countBlockToolUses_cons_other]

lemma processMessage_spinnerIdx (picks : Nat → Nat) (st : RunState) (m : Message)
    (h : st.spinnerIdx < SPINNER_STYLES.length) :
    (processMessage picks st m).spinnerIdx =
      (st.spinnerIdx + (if m.isAsstOrUser then countBlockToolUses m.content else 0)) %
        SPINNER_STYLES.length := by
  unfold processMessage
  cases ho : m.structuredOutput with
  | some out =>
    by_cases hA : m.isAsstOrUser
    · simp only [hA, if_true]
      show (m.content.foldl (processBlock picks) st).spinnerIdx = _
      exact foldl_processBlock_spinnerIdx picks m.content st h
    · simp only [hA, if_false]
      show st.spinnerIdx = _
      simp
      exact (Nat.mod_eq_of_lt h).symm
  | none =>
    by_cases hA : m.isAsstOrUser
    · simp only [hA, if_true]
      exact foldl_processBlock_spinnerIdx picks m.content st h
    · simp only [hA, if_false]
      simp
      exact (Nat.mod_eq_of_lt h).symm

lemma countToolUses_cons (m : Message) (ms : List Message) :
    countToolUses (m :: ms) =
      (if m.isAsstOrUser then countBlockToolUses m.content else 0) + countToolUses ms := by
  unfold countToolUses
  simp

lemma foldl_processMessage_spinnerIdx (picks : Nat → Nat) :
    ∀ (msgs : List Message) (st : RunState), st.spinnerIdx < SPINNER_STYLES.length →
      (msgs.foldl (processMessage picks) st).spinnerIdx =
        (st.spinnerIdx + countToolUses msgs) % SPINNER_STYLES.length := by
  intro msgs
  induction msgs with
  | nil =>
    intro st h
    simp [countToolUses]
    exact (Nat.mod_eq_of_lt h).symm
  | cons m ms ih =>
    intro st h
    rw [List.foldl_cons]
    have hm := processMessage_spinnerIdx picks st m h
    have h1 : (processMessage picks st m).spinnerIdx < SPINNER_STYLES.length := by
      rw [hm]
      exact Nat.mod_lt _ (by decide)
    rw [ih _ h1, hm, countToolUses_cons, Nat.mod_add_mod]
    congr 1
    omega

/-- C9: after processing any event-stream prefix, the spinner-style selector
equals the number of tool-invocation events processed so far, modulo the
number of spinner styles, whatever tool kinds the events carry. -/
theorem c9_spinner_selector_mod (picks : Nat → Nat) (msgs : List Message) :
    (msgs.foldl (processMessage picks) initState).spinnerIdx =
      countToolUses msgs % SPINNER_STYLES.length := by
  have h := foldl_processMessage_spinnerIdx picks msgs initState (by decide)
  rw [show initState.spinnerIdx = 0 from rfl, Nat.zero_add] at h
  exact h

end Askc
